import Mathlib

/-!
A shallow embedding of `src/connection.js` from the
`bigcommerce-oauth-api-node.js` repository, together with proofs about the
behaviour of its constructor, its request-option builder, and the response
callback shared by the four CRUD operations (`get`, `put`, `post`, `delete`).

JavaScript values that the connector exchanges over the wire are modelled by
an explicit `Json` inductive; `JSON.stringify` / `JSON.parse` are modelled by
executable functions over that type (integers, strings, booleans, null,
arrays and objects — the fragment the repository's payloads use; number
fractions/exponents are outside the modelled fragment).  `undefined` is
modelled by `Option`, a thrown JavaScript exception by the `thrown`
constructor of the callback outcome, and the `request` transport by a
function from request options to the triple `(err, res, body)` the library
passes to its callback.
-/

set_option autoImplicit false

namespace BCConn

/-- JavaScript/JSON structured values (integer-numeric fragment). -/
inductive Json where
  | null
  | bool (b : Bool)
  | num (n : Int)
  | str (s : String)
  | arr (elems : List Json)
  | obj (fields : List (String × Json))

/-- One character of a JSON string literal, escaped as `JSON.stringify` would. -/
def escapeChar (c : Char) : String :=
  if c = '"' then "\\\""
  else if c = '\\' then "\\\\"
  else if c = '\n' then "\\n"
  else if c = '\t' then "\\t"
  else if c = '\r' then "\\r"
  else String.singleton c

/-- Escape a whole string for inclusion in a JSON document. -/
def escapeString (s : String) : String :=
  String.join (s.data.map escapeChar)

mutual
/-- Model of the `JSON.stringify` builtin on the modelled fragment. -/
def Json.stringify : Json → String
  | .null => "null"
  | .bool true => "true"
  | .bool false => "false"
  | .num n => toString n
  | .str s => "\"" ++ escapeString s ++ "\""
  | .arr xs => "[" ++ stringifyElems xs ++ "]"
  | .obj fs => "\x7b" ++ stringifyFields fs ++ "\x7d"

/-- Comma-separated serialization of array elements. -/
def stringifyElems : List Json → String
  | [] => ""
  | [x] => Json.stringify x
  | x :: y :: xs => Json.stringify x ++ "," ++ stringifyElems (y :: xs)

/-- Comma-separated serialization of object members. -/
def stringifyFields : List (String × Json) → String
  | [] => ""
  | [(k, v)] => "\"" ++ escapeString k ++ "\":" ++ Json.stringify v
  | (k, v) :: f :: fs =>
      "\"" ++ escapeString k ++ "\":" ++ Json.stringify v ++ "," ++ stringifyFields (f :: fs)
end

/-- Skip JSON insignificant whitespace. -/
def skipWs (cs : List Char) : List Char :=
  cs.dropWhile (fun c => c == ' ' || c == '\t' || c == '\n' || c == '\r')

/-- Value of a single escape character inside a JSON string literal. -/
def escapeOf (c : Char) : Option Char :=
  if c = '"' then some '"'
  else if c = '\\' then some '\\'
  else if c = '/' then some '/'
  else if c = 'n' then some '\n'
  else if c = 't' then some '\t'
  else if c = 'r' then some '\r'
  else none

/-- Parse the body of a JSON string literal (after the opening quote),
returning the decoded string and the input after the closing quote. -/
def parseStrBody : List Char → Option (String × List Char)
  | [] => none
  | '"' :: rest => some ("", rest)
  | '\\' :: c :: rest =>
      match escapeOf c with
      | some ec => (parseStrBody rest).map (fun p => (String.singleton ec ++ p.1, p.2))
      | none => none
  | c :: rest => (parseStrBody rest).map (fun p => (String.singleton c ++ p.1, p.2))

/-- Numeric value of a list of decimal digit characters. -/
def digitsToNat (ds : List Char) : Nat :=
  ds.foldl (fun n c => n * 10 + (c.toNat - 48)) 0

/-- Parse a (possibly negated) decimal integer prefix of the input. -/
def parseNumber : List Char → Option (Int × List Char)
  | '-' :: rest =>
      let ds := rest.takeWhile Char.isDigit
      if ds.isEmpty then none
      else some (-(Int.ofNat (digitsToNat ds)), rest.drop ds.length)
  | cs =>
      let ds := cs.takeWhile Char.isDigit
      if ds.isEmpty then none
      else some (Int.ofNat (digitsToNat ds), cs.drop ds.length)

mutual
/-- Fuelled recursive-descent JSON value reader. -/
def parseVal : Nat → List Char → Option (Json × List Char)
  | 0, _ => none
  | Nat.succ fuel, cs =>
    match skipWs cs with
    | 'n' :: 'u' :: 'l' :: 'l' :: rest => some (Json.null, rest)
    | 't' :: 'r' :: 'u' :: 'e' :: rest => some (Json.bool true, rest)
    | 'f' :: 'a' :: 'l' :: 's' :: 'e' :: rest => some (Json.bool false, rest)
    | '"' :: rest => (parseStrBody rest).map (fun p => (Json.str p.1, p.2))
    | '[' :: rest =>
        (match skipWs rest with
         | ']' :: r2 => some (Json.arr [], r2)
         | cs2 => (parseElems fuel cs2).map (fun p => (Json.arr p.1, p.2)))
    | '\x7b' :: rest =>
        (match skipWs rest with
         | '\x7d' :: r2 => some (Json.obj [], r2)
         | cs2 => (parseMembers fuel cs2).map (fun p => (Json.obj p.1, p.2)))
    | cs2 => (parseNumber cs2).map (fun p => (Json.num p.1, p.2))

/-- Fuelled reader for the remaining elements of a non-empty JSON array. -/
def parseElems : Nat → List Char → Option (List Json × List Char)
  | 0, _ => none
  | Nat.succ fuel, cs =>
    match parseVal fuel cs with
    | none => none
    | some (v, rest) =>
      match skipWs rest with
      | ',' :: r2 => (parseElems fuel r2).map (fun p => (v :: p.1, p.2))
      | ']' :: r2 => some ([v], r2)
      | _ => none

/-- Fuelled reader for the remaining members of a non-empty JSON object. -/
def parseMembers : Nat → List Char → Option (List (String × Json) × List Char)
  | 0, _ => none
  | Nat.succ fuel, cs =>
    match skipWs cs with
    | '"' :: rest =>
      (match parseStrBody rest with
       | none => none
       | some (key, r1) =>
         match skipWs r1 with
         | ':' :: r2 =>
           (match parseVal fuel r2 with
            | none => none
            | some (v, r3) =>
              match skipWs r3 with
              | ',' :: r4 => (parseMembers fuel r4).map (fun p => ((key, v) :: p.1, p.2))
              | '\x7d' :: r4 => some ([(key, v)], r4)
              | _ => none)
         | _ => none)
    | _ => none
end

/-- Model of the `JSON.parse` builtin: an `Except` in place of the thrown
`SyntaxError`, so the caller of the model decides what a throw does. -/
def jsonParse (s : String) : Except String Json :=
  match parseVal (s.length + 1) s.data with
  | none => Except.error "Unexpected token in JSON"
  | some (v, rest) =>
      if (skipWs rest).isEmpty then Except.ok v
      else Except.error "Unexpected token in JSON"

/-- JavaScript truthiness on the modelled values (`data ? … : …`). -/
def jsTruthy : Json → Bool
  | .null => false
  | .bool b => b
  | .num n => n != 0
  | .str s => s ≠ ""
  | .arr _ => true
  | .obj _ => true

/-- Model of the `parseInt` builtin restricted to base 10: leading whitespace,
an optional sign, then decimal digits; `none` models `NaN` (in particular
`parseInt(undefined)`). -/
def jsParseInt : Option String → Option Int
  | none => none
  | some s =>
      let cs := s.data.dropWhile Char.isWhitespace
      match cs with
      | '-' :: rest =>
          let ds := rest.takeWhile Char.isDigit
          if ds.isEmpty then none else some (-(Int.ofNat (digitsToNat ds)))
      | '+' :: rest =>
          let ds := rest.takeWhile Char.isDigit
          if ds.isEmpty then none else some (Int.ofNat (digitsToNat ds))
      | rest =>
          let ds := rest.takeWhile Char.isDigit
          if ds.isEmpty then none else some (Int.ofNat (digitsToNat ds))

/-- `res.headers[name]`: property access on the headers object the transport
handed to the callback (`none` models `undefined`). -/
def headersGet (headers : List (String × String)) (name : String) : Option String :=
  (headers.find? (fun h => h.1 = name)).map Prod.snd

/-- The configuration object passed to `Connection` (`src/connection.js`
lines 29-36).  Each field is `Option`al because the constructor tests it with
`typeof … === 'undefined'`.  `maxConcurrentRequests` is the max-connections
setting the repository README advertises ("Connection Pooling. Can set a max
number of connections"); `connection.js` itself never reads it. -/
structure Config where
  hash : Option String
  token : Option String
  cid : Option String
  api : Option String
  maxConcurrentRequests : Option Int

/-- A constructed connection instance: the formatted API URL `this.host`
(line 57) and the raw configuration stored by `this.config = config`
(line 60). -/
structure Conn where
  host : String
  config : Config

/-- The body of the `Connection` constructor after the `instanceof` guard
(`src/connection.js` lines 43-61): validate that the config and its four
required fields are defined (a thrown `Error` is modelled by
`Except.error`), then format `this.host` and store the config. -/
def connectionBody (config : Option Config) : Except String Conn :=
  match config with
  | none => Except.error "Error: Connection needs to be initialized with a config parameter"
  | some c =>
    match c.hash with
    | none => Except.error "Error: Connection needs store hash - config.hash."
    | some hash =>
      match c.token, c.cid with
      | none, _ => Except.error "Error: Connection needs store oAuth token - config.token."
      | some _, none => Except.error "Error: Connection needs app client id - config.cid."
      | some _, some _ =>
        match c.api with
        | none => Except.error "Error: Connection needs BigComerce API URL - config.api."
        | some api => Except.ok { host := api ++ "/stores/" ++ hash ++ "/v2", config := c }

/-- Invoking `Connection(config)` (`src/connection.js` lines 37-41).
`thisIsInstance` is the value of `this instanceof Connection`: `new` makes it
true and the body runs; a plain call takes the guard's
`return new Connection(config)`, re-entering with an instance receiver. -/
def connectionInvoke : Bool → Option Config → Except String Conn
  | true, config => connectionBody config
  | false, config => connectionInvoke true config
termination_by b _ => if b then 0 else 1

/-- The options object built by `Connection.prototype.getRequestOptions`
(`src/connection.js` lines 216-230). -/
structure RequestOptions where
  url : String
  method : String
  acceptHeader : String
  contentTypeHeader : String
  xAuthClient : Option String
  xAuthToken : Option String
  body : Option String

/-- `getRequestOptions(method, endpoint, data)` (lines 216-230): the URL
prepends a forward slash when `endpoint.substring(0,1) !== '/'`; headers come
from the stored config; `body` is `data ? JSON.stringify(data) : null`. -/
def Connection.getRequestOptions (self : Conn) (method : String) (endpoint : String)
    (data : Option Json) : RequestOptions :=
  { url := if endpoint.data.take 1 ≠ ['/'] then self.host ++ "/" ++ endpoint
           else self.host ++ endpoint
    method := method
    acceptHeader := "application/json"
    contentTypeHeader := "application/json"
    xAuthClient := self.config.cid
    xAuthToken := self.config.token
    body := match data with
            | some d => if jsTruthy d then some d.stringify else none
            | none => none }

/-- What the `request` library passes to the callback: either a truthy `err`,
or a response (status code, headers, raw body string). -/
inductive TransportResult where
  | error (err : String)
  | response (statusCode : Int) (headers : List (String × String)) (body : String)

/-- A deterministic single-exchange transport: the `request(options, cb)`
collaborator. -/
def Transport : Type := RequestOptions → TransportResult

/-- A thrown JavaScript exception inside the callback. -/
inductive JsError where
  | referenceError (name : String)
  | syntaxError (msg : String)

/-- How one invocation of the response callback settles (or fails to settle)
the caller's promise. -/
inductive Outcome where
  | rejectedErr (err : String)
  | rejectedBody (body : String)
  | fulfilled (v : Json)
  | retryScheduled (delayMs : Option Int) (method : String) (endpoint : String)
  | thrown (e : JsError)

/-- The local `var timeout = ((parseInt(res.headers["X-Retry-After"]) + 2) * 1000)`
computed in the rate-limit branch (lines 98, 131, 164, 196); `none` models
`NaN`.  Note the lookup uses the literal key `"X-Retry-After"` although the
transport library delivers header names lowercased. -/
def timeoutLocal (headers : List (String × String)) : Option Int :=
  (jsParseInt (headersGet headers "X-Retry-After")).map (fun n => (n + 2) * 1000)

/-- The rate-limit branch of the callback (lines 97-101 and its three verbatim
copies): after computing the local `timeout`, the code runs
`setTimeout(function() { fulfill(self.get(endpoint)); }, retry);`.
The identifier `retry` is declared nowhere in `connection.js`, so evaluating
the second argument throws a `ReferenceError` before any timer is created. -/
def rateLimitBranch (headers : List (String × String)) : Outcome :=
  let _timeout : Option Int := timeoutLocal headers
  Outcome.thrown (JsError.referenceError "retry")

/-- The callback body shared verbatim by `get` (lines 91-106), `put`
(124-139), `post` (157-172) and `delete` (189-204):
`if (err || res.statusCode !== 200) return err ? reject(err) : reject(body);`
then `if (res.statusCode === 429) …` else `fulfill(JSON.parse(body))`.
A `JSON.parse` throw happens inside the asynchronous transport callback,
outside the promise executor's synchronous extent, so it is modelled as
`thrown`, not as a rejection. -/
def responseCallback (tr : TransportResult) : Outcome :=
  match tr with
  | .error err => Outcome.rejectedErr err
  | .response statusCode headers body =>
    if statusCode ≠ 200 then Outcome.rejectedBody body
    else if statusCode = 429 then rateLimitBranch headers
    else
      match jsonParse body with
      | Except.ok v => Outcome.fulfilled v
      | Except.error m => Outcome.thrown (JsError.syntaxError m)

/-- `Connection.prototype.get` (lines 87-108): one exchange through the
transport, settled by the shared callback. -/
def Connection.get (self : Conn) (endpoint : String) (transport : Transport) : Outcome :=
  responseCallback (transport (Connection.getRequestOptions self "GET" endpoint none))

/-- `Connection.prototype.put` (lines 120-141). -/
def Connection.put (self : Conn) (endpoint : String) (data : Option Json)
    (transport : Transport) : Outcome :=
  responseCallback (transport (Connection.getRequestOptions self "PUT" endpoint data))

/-- `Connection.prototype.post` (lines 153-174). -/
def Connection.post (self : Conn) (endpoint : String) (data : Option Json)
    (transport : Transport) : Outcome :=
  responseCallback (transport (Connection.getRequestOptions self "POST" endpoint data))

/-- `Connection.prototype.delete` (lines 185-206). -/
def Connection.delete (self : Conn) (endpoint : String) (transport : Transport) : Outcome :=
  responseCallback (transport (Connection.getRequestOptions self "DELETE" endpoint none))

/-- One caller-initiated CRUD call. -/
inductive OpCall where
  | get (endpoint : String)
  | put (endpoint : String) (data : Option Json)
  | post (endpoint : String) (data : Option Json)
  | del (endpoint : String)

/-- Run one call against the instance: the pair returns the instance as it
stands after the call (the methods assign to no field of `self`) together
with the call's outcome. -/
def runCall (self : Conn) (c : OpCall) (transport : Transport) : Conn × Outcome :=
  match c with
  | .get e => (self, Connection.get self e transport)
  | .put e d => (self, Connection.put self e d transport)
  | .post e d => (self, Connection.post self e d transport)
  | .del e => (self, Connection.delete self e transport)

/-- The instance state after a whole sequence of calls. -/
def runCalls (self : Conn) : List (OpCall × Transport) → Conn
  | [] => self
  | (c, t) :: rest => runCalls (runCall self c t).1 rest

/-- A sample valid configuration, used by concrete instantiations below. -/
def sampleConfig : Config :=
  ⟨some "abc", some "tok", some "cid0", some "https://api.bigcommerce.com", none⟩

/-- The instance `new Connection(sampleConfig)` produces. -/
def sampleConn : Conn :=
  ⟨"https://api.bigcommerce.com/stores/abc/v2", sampleConfig⟩

/-- Invoking the constructor with `new` runs the constructor body. -/
theorem connectionInvoke_true_eq (cfg : Option Config) :
    connectionInvoke true cfg = connectionBody cfg := by
  simp [connectionInvoke]

/-- Invoking the constructor without `new` also runs the constructor body. -/
theorem connectionInvoke_false_eq (cfg : Option Config) :
    connectionInvoke false cfg = connectionBody cfg := by
  simp [connectionInvoke]

/-- C1: contrary to the claim, a 429 exchange is never retried: the callback's
first guard (`err || res.statusCode !== 200`) rejects the caller's promise
with the raw body for every non-200 status, 429 included, so the rate-limit
branch is unreachable and the rate-limit condition is directly observable to
the caller of each of the four operations. -/
theorem rate_limited_call_rejects_without_retry (self : Conn) (e : String) (d : Option Json)
    (hdrs : List (String × String)) (b : String) :
    Connection.get self e (fun _ => TransportResult.response 429 hdrs b)
      = Outcome.rejectedBody b
    ∧ Connection.put self e d (fun _ => TransportResult.response 429 hdrs b)
      = Outcome.rejectedBody b
    ∧ Connection.post self e d (fun _ => TransportResult.response 429 hdrs b)
      = Outcome.rejectedBody b
    ∧ Connection.delete self e (fun _ => TransportResult.response 429 hdrs b)
      = Outcome.rejectedBody b :=
  ⟨rfl, rfl, rfl, rfl⟩

/-- C2: with a retry-after header of `1` the branch-local `timeout` variable
would indeed hold `(1 + 2) * 1000 = 3000`, but no timer with that delay is
ever started: the full callback rejects the 429 response outright, and even
the (unreachable) rate-limit branch passes the undeclared identifier `retry`
to `setTimeout`, which throws a `ReferenceError` instead of scheduling. -/
theorem retry_delay_computed_but_never_used :
    timeoutLocal [("X-Retry-After", "1")] = some 3000
    ∧ rateLimitBranch [("X-Retry-After", "1")]
        = Outcome.thrown (JsError.referenceError "retry")
    ∧ responseCallback (TransportResult.response 429 [("X-Retry-After", "1")] "limited")
        = Outcome.rejectedBody "limited" :=
  ⟨rfl, rfl, rfl⟩

/-- C3 counterexample: a 500 response with body `"Internal Error"` is rejected
with the bare body string, and a 404 response with the same body produces the
identical rejection value — so the rejection cannot carry the status code,
refuting the claim that the error carries both status and body. -/
theorem rejection_value_is_body_without_status :
    responseCallback (TransportResult.response 500 [] "Internal Error")
      = Outcome.rejectedBody "Internal Error"
    ∧ responseCallback (TransportResult.response 404 [] "Internal Error")
      = responseCallback (TransportResult.response 500 [] "Internal Error") :=
  ⟨rfl, rfl⟩

/-- C3 amended: every response with a status other than 200 (and other than
429) and no transport error makes each of the four operations reject the
caller's promise with the raw response body alone — the status code is not
attached to the rejection value — and no retry is made. -/
theorem non_ok_status_rejects_with_raw_body (status : Int) (hdrs : List (String × String))
    (b : String) (self : Conn) (e : String) (d : Option Json)
    (h200 : status ≠ 200) (_h429 : status ≠ 429) :
    Connection.get self e (fun _ => TransportResult.response status hdrs b)
      = Outcome.rejectedBody b
    ∧ Connection.put self e d (fun _ => TransportResult.response status hdrs b)
      = Outcome.rejectedBody b
    ∧ Connection.post self e d (fun _ => TransportResult.response status hdrs b)
      = Outcome.rejectedBody b
    ∧ Connection.delete self e (fun _ => TransportResult.response status hdrs b)
      = Outcome.rejectedBody b := by
  refine ⟨?_, ?_, ?_, ?_⟩ <;>
    simp [Connection.get, Connection.put, Connection.post, Connection.delete,
      responseCallback, h200]

/-- C3 witness: the amended statement at the spec's own example — a constant
500 `"Internal Error"` transport makes `put('/products/1', \x7bprice: 10\x7d)`
reject with the body. -/
theorem non_ok_status_rejects_with_raw_body_witness :
    Connection.put sampleConn "/products/1" (some (Json.obj [("price", Json.num 10)]))
      (fun _ => TransportResult.response 500 [] "Internal Error")
      = Outcome.rejectedBody "Internal Error" :=
  (non_ok_status_rejects_with_raw_body 500 [] "Internal Error" sampleConn "/products/1"
    (some (Json.obj [("price", Json.num 10)])) (by decide) (by decide)).2.1

/-- C4 counterexample: a 200 response whose body is not valid JSON makes
`JSON.parse` throw inside the asynchronous transport callback, outside the
promise executor's synchronous extent: the outcome is an uncaught `thrown`
exception, not a rejected promise, refuting the claim that the parse failure
surfaces as a (rejected) error. -/
theorem malformed_body_at_ok_status_throws :
    Connection.get sampleConn "/products"
      (fun _ => TransportResult.response 200 [] "not json")
      = Outcome.thrown (JsError.syntaxError "Unexpected token in JSON") :=
  rfl

/-- C4 amended: a 200 response is parsed as JSON and the promise is fulfilled
with the structured value when the body is valid (as in the spec's
`GET /products/42` example); when the body is malformed, the `JSON.parse`
exception escapes the callback uncaught instead of rejecting the promise. -/
theorem ok_status_parses_json_or_throws :
    (∀ (hdrs : List (String × String)) (b : String),
       responseCallback (TransportResult.response 200 hdrs b)
         = match jsonParse b with
           | Except.ok v => Outcome.fulfilled v
           | Except.error m => Outcome.thrown (JsError.syntaxError m))
    ∧ Connection.get sampleConn "/products/42"
        (fun _ => TransportResult.response 200 [] "\x7b\"id\": 42, \"name\": \"Widget\"\x7d")
        = Outcome.fulfilled (Json.obj [("id", Json.num 42), ("name", Json.str "Widget")]) :=
  ⟨fun _ _ => rfl, rfl⟩

/-- C5 counterexample: a configuration whose store hash is the empty string
passes every `typeof … === 'undefined'` check, so construction succeeds and
an instance is produced (with a malformed resource root), refuting the claim
that an empty required field fails construction. -/
theorem empty_hash_still_constructs :
    connectionInvoke true (some ⟨some "", some "t", some "c", some "https://api.example.com", none⟩)
      = Except.ok ⟨"https://api.example.com/stores//v2",
          ⟨some "", some "t", some "c", some "https://api.example.com", none⟩⟩ := by
  simp [connectionInvoke, connectionBody]

/-- C5 amended: construction fails synchronously (a thrown error, before any
network activity) exactly when the configuration object itself or one of the
four required fields is absent (`undefined`); values that are present —
including empty strings — are accepted. -/
theorem construction_fails_iff_field_absent :
    (connectionInvoke true none).isOk = false
    ∧ ∀ c : Config, (connectionInvoke true (some c)).isOk = false
        ↔ (c.hash = none ∨ c.token = none ∨ c.cid = none ∨ c.api = none) := by
  constructor
  · simp [connectionInvoke, connectionBody, Except.isOk, Except.toBool, Except.map]
  · intro c
    rcases c with ⟨h, t, cid, api, m⟩
    cases h <;> cases t <;> cases cid <;> cases api <;>
      simp [connectionInvoke, connectionBody, Except.isOk, Except.toBool, Except.map]

/-- C6: for every configuration whose four required fields are present and
non-empty, construction never throws and the stored resource root `this.host`
equals `apiBaseUrl + "/stores/" + storeHash + "/v2"`, computed once at
construction. -/
theorem valid_config_constructs_resource_root (h t c a : String) (m : Option Int)
    (_hh : h ≠ "") (_ht : t ≠ "") (_hc : c ≠ "") (_ha : a ≠ "") :
    connectionInvoke true (some ⟨some h, some t, some c, some a, m⟩)
      = Except.ok ⟨a ++ "/stores/" ++ h ++ "/v2", ⟨some h, some t, some c, some a, m⟩⟩ := by
  simp [connectionInvoke, connectionBody]

/-- C6 witness: the resource-root formula at a concrete valid configuration. -/
theorem valid_config_constructs_resource_root_witness :
    connectionInvoke true (some ⟨some "abc", some "tok", some "cid0",
        some "https://api.bigcommerce.com", none⟩)
      = Except.ok ⟨"https://api.bigcommerce.com" ++ "/stores/" ++ "abc" ++ "/v2",
          ⟨some "abc", some "tok", some "cid0", some "https://api.bigcommerce.com", none⟩⟩ :=
  valid_config_constructs_resource_root "abc" "tok" "cid0" "https://api.bigcommerce.com" none
    (by decide) (by decide) (by decide) (by decide)

/-- C7: for every non-empty path that does not begin with `/`, and every
method and body, the dispatched URL equals the one built for the same path
with a leading `/`, namely the resource root followed by exactly one `/` and
the path. -/
theorem url_ignores_missing_leading_slash (self : Conn) (m : String) (d : Option Json)
    (p : String) (_hp : p ≠ "") (hs : p.data.take 1 ≠ ['/']) :
    (Connection.getRequestOptions self m ("/" ++ p) d).url
      = (Connection.getRequestOptions self m p d).url
    ∧ (Connection.getRequestOptions self m p d).url = self.host ++ "/" ++ p := by
  have hdata : ("/" ++ p).data.take 1 = ['/'] := by
    rw [String.data_append]; rfl
  constructor
  · simp [Connection.getRequestOptions, hdata, hs, ← String.append_assoc]
  · simp [Connection.getRequestOptions, hs]

/-- C7 witness: `"products"` and `"/products"` yield the same dispatched URL,
the resource root followed by `/products`. -/
theorem url_ignores_missing_leading_slash_witness :
    (Connection.getRequestOptions sampleConn "GET" ("/" ++ "products") none).url
      = (Connection.getRequestOptions sampleConn "GET" "products" none).url
    ∧ (Connection.getRequestOptions sampleConn "GET" "products" none).url
      = sampleConn.host ++ "/" ++ "products" :=
  url_ignores_missing_leading_slash sampleConn "GET" none "products" (by decide) (by decide)

/-- C8: `connection.js` never reads any concurrency setting: two
configurations that differ only in `maxConcurrentRequests` construct
instances with the same success/failure and the same resource root, and every
one of the four operations behaves identically under them against any
transport — so no admission-control ceiling is (or can be) enforced by the
code; every call dispatches to the transport unconditionally. -/
theorem max_concurrent_requests_never_read (h t c a : Option String) (n m : Option Int)
    (host e : String) (d : Option Json) (tr : Transport) :
    (connectionInvoke true (some ⟨h, t, c, a, n⟩)).isOk
      = (connectionInvoke true (some ⟨h, t, c, a, m⟩)).isOk
    ∧ (connectionInvoke true (some ⟨h, t, c, a, n⟩)).map Conn.host
      = (connectionInvoke true (some ⟨h, t, c, a, m⟩)).map Conn.host
    ∧ Connection.get ⟨host, ⟨h, t, c, a, n⟩⟩ e tr = Connection.get ⟨host, ⟨h, t, c, a, m⟩⟩ e tr
    ∧ Connection.put ⟨host, ⟨h, t, c, a, n⟩⟩ e d tr
      = Connection.put ⟨host, ⟨h, t, c, a, m⟩⟩ e d tr
    ∧ Connection.post ⟨host, ⟨h, t, c, a, n⟩⟩ e d tr
      = Connection.post ⟨host, ⟨h, t, c, a, m⟩⟩ e d tr
    ∧ Connection.delete ⟨host, ⟨h, t, c, a, n⟩⟩ e tr
      = Connection.delete ⟨host, ⟨h, t, c, a, m⟩⟩ e tr := by
  refine ⟨?_, ?_, rfl, rfl, rfl, rfl⟩ <;>
    cases h <;> cases t <;> cases c <;> cases a <;>
      simp [connectionInvoke, connectionBody, Except.isOk, Except.toBool, Except.map]

/-- C9: no sequence of `get`/`put`/`post`/`delete` calls mutates the
instance: the stored configuration and the derived resource root are
unchanged after every call. -/
theorem calls_never_mutate_instance (self : Conn) (calls : List (OpCall × Transport)) :
    runCalls self calls = self := by
  induction calls with
  | nil => rfl
  | cons ct rest ih =>
    rcases ct with ⟨c, t⟩
    cases c <;> simpa [runCalls, runCall] using ih

/-- C10: invoking the constructor as a plain function takes the
`instanceof` guard's `return new Connection(config)` path, so it returns
exactly what invocation with `new` returns — the same instance for valid
configurations and the same thrown error for invalid ones. -/
theorem plain_call_equals_new_call (cfg : Option Config) :
    connectionInvoke false cfg = connectionInvoke true cfg := by
  rw [connectionInvoke_false_eq, connectionInvoke_true_eq]

end BCConn
